import Mathlib

/-!
Shallow embedding of the matching and moderation logic of the
international-matching-app repository.

Sources embedded here:
* `src/lib/matching.ts` — `calculateAge`, `calculateCompatibilityScore`,
  `getRecommendations`, `likeUser`, `passUser`;
* `src/unnamed/part_008` (`src/lib/reporting.ts`) — `ReportingService`:
  `calculateReportPriority`, `createReport`, `checkForAutomaticActions`,
  `applySafetyAction`;
* `src/unnamed/part_001` (`src/app/api/reports/route.ts`) — the `POST`
  handler for report creation.

Modelling conventions: JavaScript dates are values — a calendar date is a
`SimpleDate` (year, month, day as returned by `getFullYear`/`getMonth`/
`getDate`), an instant is an integer count of milliseconds since the epoch
(`Date.now()`, `getTime()`). The ambient clock read by the code through
`new Date()` / `Date.now()` is passed explicitly as a `Clock`. The database
round trips are passed explicitly as the rows the queries would return.
`daysSinceActive <= k` on floating-point day counts is embedded as the
exact comparison `diffMs ≤ k * 86400000`, which agrees with the double
computation on integer millisecond inputs in the ranges compared.
-/

namespace MatchingApp

/-- Calendar date as JS exposes it: `getMonth` is 0-based; fields are `Int`
to mirror JS number arithmetic on them. -/
structure SimpleDate where
  year : Int
  month : Int
  day : Int
deriving DecidableEq, Repr

/-- The ambient clock: `today` is what `new Date()` decomposes to, `nowMs`
is `Date.now()`. -/
structure Clock where
  today : SimpleDate
  nowMs : Int
deriving DecidableEq, Repr

/-- `UserProfile` (src/lib/matching.ts, lines 3–20), restricted to the
fields the embedded operations read. `birth_date` and `last_active` are
ISO strings in TS; they are embedded as the date values they parse to. -/
structure UserProfile where
  id : String
  birth_date : SimpleDate
  gender : String
  country : String
  interests : List String
  languages : List String
  education_level : Option String
  verification_status : String
  last_active : Int
deriving DecidableEq, Repr

/-- `MatchingPreferences` (src/lib/matching.ts, lines 22–30), the fields
read by scoring and recommendation. -/
structure MatchingPreferences where
  min_age : Int
  max_age : Int
  preferred_countries : List String
  preferred_education : List String
deriving DecidableEq, Repr

/-- `matchingService.calculateAge` (src/lib/matching.ts, lines 62–73):
year difference, minus one when the birthday has not yet occurred this
year. -/
def calculateAge (today birth : SimpleDate) : Int :=
  let age := today.year - birth.year
  let monthDiff := today.month - birth.month
  if monthDiff < 0 ∨ (monthDiff = 0 ∧ today.day < birth.day) then age - 1 else age

/-- Age-compatibility block of `calculateCompatibilityScore`
(src/lib/matching.ts, lines 80–87): 25 points when preferences exist and
the candidate's age is within `[min_age, max_age]`. -/
def ageScore (clk : Clock) (candidate : UserProfile) :
    Option MatchingPreferences → Nat
  | some p =>
    let candidateAge := calculateAge clk.today candidate.birth_date
    if p.min_age ≤ candidateAge ∧ candidateAge ≤ p.max_age then 25 else 0
  | none => 0

/-- Country-preference block (src/lib/matching.ts, lines 89–97): 20 points
when the candidate's country is preferred, a base 10 when no country
preference is set. -/
def countryScore (candidate : UserProfile) : Option MatchingPreferences → Nat
  | some p =>
    if p.preferred_countries.length > 0 then
      if candidate.country ∈ p.preferred_countries then 20 else 0
    else 10
  | none => 10

/-- Education block (src/lib/matching.ts, lines 99–107): 15 points for a
preferred education level, 7 for any stated level otherwise. -/
def educationScore (candidate : UserProfile) :
    Option MatchingPreferences → Nat
  | some p =>
    match candidate.education_level with
    | some edu =>
      if p.preferred_education.length > 0 then
        if edu ∈ p.preferred_education then 15 else 0
      else 7
    | none => 0
  | none =>
    match candidate.education_level with
    | some _ => 7
    | none => 0

/-- `commonInterests` (src/lib/matching.ts, lines 111–113): the user's
interests that the candidate also has. -/
def commonInterests (user candidate : UserProfile) : List String :=
  user.interests.filter (fun interest => interest ∈ candidate.interests)

/-- Shared-interest block (src/lib/matching.ts, lines 109–114): 4 points
per shared interest, capped at 20. -/
def interestScore (user candidate : UserProfile) : Nat :=
  min 20 ((commonInterests user candidate).length * 4)

/-- `commonLanguages` (src/lib/matching.ts, lines 118–120). -/
def commonLanguages (user candidate : UserProfile) : List String :=
  user.languages.filter (fun lang => lang ∈ candidate.languages)

/-- Shared-language block (src/lib/matching.ts, lines 116–121): 5 points
per shared language, capped at 10. -/
def languageScore (user candidate : UserProfile) : Nat :=
  min 10 ((commonLanguages user candidate).length * 5)

/-- Recency block (src/lib/matching.ts, lines 123–131): 10/7/5/2 points by
days since `last_active`; `daysSinceActive ≤ k` is the exact comparison
in milliseconds. -/
def recencyScore (clk : Clock) (candidate : UserProfile) : Nat :=
  let diffMs := clk.nowMs - candidate.last_active
  if diffMs ≤ 86400000 then 10
  else if diffMs ≤ 7 * 86400000 then 7
  else if diffMs ≤ 30 * 86400000 then 5
  else 2

/-- `Math.round (a / b) : ℕ` for `b > 0`: round half up, as JS does on the
nonnegative values produced here. -/
def roundDiv (a b : Nat) : Nat := (2 * a + b) / (2 * b)

/-- `matchingService.calculateCompatibilityScore` (src/lib/matching.ts,
lines 76–134): sum of the six factor blocks, `maxScore` accumulated as in
the source, result `Math.round((score / maxScore) * 100)`. -/
def calculateCompatibilityScore (clk : Clock) (user candidate : UserProfile)
    (preferences : Option MatchingPreferences) : Nat :=
  let score := ageScore clk candidate preferences
    + countryScore candidate preferences
    + educationScore candidate preferences
    + interestScore user candidate
    + languageScore user candidate
    + recencyScore clk candidate
  let maxScore := 25 + 20 + 15 + 20 + 10 + 10
  roundDiv (score * 100) maxScore

lemma ageScore_le (clk : Clock) (c : UserProfile)
    (p : Option MatchingPreferences) : ageScore clk c p ≤ 25 := by
  cases p with
  | none => simp [ageScore]
  | some pr =>
    simp only [ageScore]
    split <;> omega

lemma countryScore_le (c : UserProfile) (p : Option MatchingPreferences) :
    countryScore c p ≤ 20 := by
  cases p with
  | none => simp [countryScore]
  | some pr =>
    simp only [countryScore]
    split
    · split <;> omega
    · omega

lemma educationScore_le (c : UserProfile) (p : Option MatchingPreferences) :
    educationScore c p ≤ 15 := by
  cases p with
  | none =>
    cases h : c.education_level <;> simp [educationScore, h]
  | some pr =>
    cases h : c.education_level with
    | none => simp [educationScore, h]
    | some edu =>
      simp only [educationScore, h]
      split
      · split <;> omega
      · omega

lemma interestScore_le (u c : UserProfile) : interestScore u c ≤ 20 :=
  min_le_left _ _

lemma languageScore_le (u c : UserProfile) : languageScore u c ≤ 10 :=
  min_le_left _ _

lemma recencyScore_le (clk : Clock) (c : UserProfile) :
    recencyScore clk c ≤ 10 := by
  simp only [recencyScore]
  split
  · omega
  · split
    · omega
    · split <;> omega

lemma recencyScore_pos (clk : Clock) (c : UserProfile) :
    2 ≤ recencyScore clk c := by
  simp only [recencyScore]
  split
  · omega
  · split
    · omega
    · split <;> omega

/-- `roundDiv (s * 100) 100 = s`: with `maxScore = 100` the final rounding
step is the identity. -/
lemma roundDiv_hundred (s : Nat) : roundDiv (s * 100) 100 = s := by
  simp only [roundDiv]
  omega

lemma calculateCompatibilityScore_eq (clk : Clock) (u c : UserProfile)
    (p : Option MatchingPreferences) :
    calculateCompatibilityScore clk u c p =
      ageScore clk c p + countryScore c p + educationScore c p
        + interestScore u c + languageScore u c + recencyScore clk c := by
  simp only [calculateCompatibilityScore]
  exact roundDiv_hundred _

/-- C1: `calculateCompatibilityScore` returns an integer between 0 and 100
inclusive (here a `Nat`, so the lower bound is by type), computed as a
weighted sum of exactly six factors with fixed caps — age-range fit 25,
country preference 20, education preference 15, shared interests 20 (4 per
shared interest), shared languages 10 (5 per shared language), recency of
last activity 10 — and the per-factor maxima (the accumulated `maxScore`)
always total 100. -/
theorem compatibilityScore_bounds (clk : Clock) (u c : UserProfile)
    (p : Option MatchingPreferences) :
    calculateCompatibilityScore clk u c p =
      ageScore clk c p + countryScore c p + educationScore c p
        + interestScore u c + languageScore u c + recencyScore clk c
    ∧ ageScore clk c p ≤ 25
    ∧ countryScore c p ≤ 20
    ∧ educationScore c p ≤ 15
    ∧ interestScore u c ≤ 20
    ∧ languageScore u c ≤ 10
    ∧ recencyScore clk c ≤ 10
    ∧ interestScore u c = min 20 ((commonInterests u c).length * 4)
    ∧ languageScore u c = min 10 ((commonLanguages u c).length * 5)
    ∧ ((25 : Nat) + 20 + 15 + 20 + 10 + 10 = 100)
    ∧ calculateCompatibilityScore clk u c p ≤ 100 := by
  refine ⟨calculateCompatibilityScore_eq clk u c p, ageScore_le clk c p,
    countryScore_le c p, educationScore_le c p, interestScore_le u c,
    languageScore_le u c, recencyScore_le clk c, rfl, rfl, rfl, ?_⟩
  rw [calculateCompatibilityScore_eq clk u c p]
  have h1 := ageScore_le clk c p
  have h2 := countryScore_le c p
  have h3 := educationScore_le c p
  have h4 := interestScore_le u c
  have h5 := languageScore_le u c
  have h6 := recencyScore_le clk c
  omega

/-- C4 counterexample: the score is not independent of the ambient clock.
With preferences absent and two clock readings that differ only in
`Date.now()` (last activity 0 ms vs. 40 days before the second reading),
the same user/candidate pair scores 20 at the first instant and 12 at the
second. -/
theorem compatibilityScore_clock_dependent_cex :
    calculateCompatibilityScore ⟨⟨2026, 0, 1⟩, 0⟩
        ⟨"u", ⟨1990, 0, 1⟩, "male", "KR", [], [], none, "verified", 0⟩
        ⟨"c", ⟨1992, 0, 1⟩, "female", "US", [], [], none, "verified", 0⟩ none
      ≠
    calculateCompatibilityScore ⟨⟨2026, 0, 1⟩, 40 * 86400000⟩
        ⟨"u", ⟨1990, 0, 1⟩, "male", "KR", [], [], none, "verified", 0⟩
        ⟨"c", ⟨1992, 0, 1⟩, "female", "US", [], [], none, "verified", 0⟩ none := by
  decide

lemma ageScore_congr (clk1 clk2 : Clock) (c : UserProfile)
    (p : Option MatchingPreferences)
    (hage : calculateAge clk1.today c.birth_date
      = calculateAge clk2.today c.birth_date) :
    ageScore clk1 c p = ageScore clk2 c p := by
  cases p with
  | none => rfl
  | some pr => simp only [ageScore, hage]

/-- C4 amended: the score is a deterministic function of the two profiles,
the preferences and the clock; the clock influences it only through the
candidate's computed age and the recency bucket of `last_active`. -/
theorem compatibilityScore_clock_invariance (clk1 clk2 : Clock)
    (u c : UserProfile) (p : Option MatchingPreferences)
    (hage : calculateAge clk1.today c.birth_date
      = calculateAge clk2.today c.birth_date)
    (hrec : recencyScore clk1 c = recencyScore clk2 c) :
    calculateCompatibilityScore clk1 u c p
      = calculateCompatibilityScore clk2 u c p := by
  rw [calculateCompatibilityScore_eq, calculateCompatibilityScore_eq,
    ageScore_congr clk1 clk2 c p hage, hrec]

/-- Witness for C4's amended theorem at concrete inputs: two clock
readings one second apart, same calendar day. -/
theorem compatibilityScore_clock_invariance_witness :
    calculateCompatibilityScore ⟨⟨2026, 0, 1⟩, 0⟩
        ⟨"u", ⟨1990, 0, 1⟩, "male", "KR", [], [], none, "verified", 0⟩
        ⟨"c", ⟨1992, 0, 1⟩, "female", "US", [], [], none, "verified", 0⟩ none
      =
    calculateCompatibilityScore ⟨⟨2026, 0, 1⟩, 1000⟩
        ⟨"u", ⟨1990, 0, 1⟩, "male", "KR", [], [], none, "verified", 0⟩
        ⟨"c", ⟨1992, 0, 1⟩, "female", "US", [], [], none, "verified", 0⟩ none :=
  compatibilityScore_clock_invariance _ _ _ _ _ (by decide) (by decide)

lemma commonInterests_append_length (u c : UserProfile) (x : String)
    (hx : x ∉ u.interests) :
    (commonInterests { u with interests := u.interests ++ [x] }
        { c with interests := c.interests ++ [x] }).length
      = (commonInterests u c).length + 1 := by
  simp only [commonInterests, List.filter_append]
  have hx' : x ∈ c.interests ++ [x] := by simp
  have h1 : List.filter (fun i => decide (i ∈ c.interests ++ [x])) [x] = [x] := by
    simp
  have h2 : List.filter (fun i => decide (i ∈ c.interests ++ [x])) u.interests
      = List.filter (fun i => decide (i ∈ c.interests)) u.interests := by
    apply List.filter_congr
    intro y hy
    have hyx : y ≠ x := fun h => hx (h ▸ hy)
    simp [List.mem_append, hyx]
  rw [h1, h2]
  simp

/-- C10: extending the set of interests common to user and candidate by one
element (added to both interest lists) never decreases the score, and
increases it by exactly 4 while fewer than five interests are shared. -/
theorem compatibilityScore_interest_monotone (clk : Clock)
    (u c : UserProfile) (p : Option MatchingPreferences) (x : String)
    (hx : x ∉ u.interests) :
    calculateCompatibilityScore clk u c p ≤
      calculateCompatibilityScore clk { u with interests := u.interests ++ [x] }
        { c with interests := c.interests ++ [x] } p
    ∧ ((commonInterests u c).length < 5 →
      calculateCompatibilityScore clk { u with interests := u.interests ++ [x] }
          { c with interests := c.interests ++ [x] } p
        = calculateCompatibilityScore clk u c p + 4) := by
  have hlen := commonInterests_append_length u c x hx
  have ha : ageScore clk { c with interests := c.interests ++ [x] } p
      = ageScore clk c p := by cases p <;> rfl
  have hco : countryScore { c with interests := c.interests ++ [x] } p
      = countryScore c p := by cases p <;> rfl
  have hed : educationScore { c with interests := c.interests ++ [x] } p
      = educationScore c p := by cases p <;> rfl
  have hla : languageScore { u with interests := u.interests ++ [x] }
      { c with interests := c.interests ++ [x] } = languageScore u c := rfl
  have hre : recencyScore clk { c with interests := c.interests ++ [x] }
      = recencyScore clk c := rfl
  have hint : interestScore { u with interests := u.interests ++ [x] }
      { c with interests := c.interests ++ [x] }
      = min 20 (((commonInterests u c).length + 1) * 4) := by
    simp only [interestScore, hlen]
  constructor
  · rw [calculateCompatibilityScore_eq, calculateCompatibilityScore_eq,
      ha, hco, hed, hla, hre, hint]
    simp only [interestScore]
    omega
  · intro hfew
    rw [calculateCompatibilityScore_eq, calculateCompatibilityScore_eq,
      ha, hco, hed, hla, hre, hint]
    simp only [interestScore]
    omega

/-- Witness for C10 at concrete inputs: adding the one interest "music" to
two previously disjoint interest lists raises the score by exactly 4. -/
theorem compatibilityScore_interest_monotone_witness :
    calculateCompatibilityScore ⟨⟨2026, 0, 1⟩, 0⟩
        ⟨"u", ⟨1990, 0, 1⟩, "male", "KR", ["hiking"] ++ ["music"], [], none, "verified", 0⟩
        ⟨"c", ⟨1992, 0, 1⟩, "female", "US", ["chess"] ++ ["music"], [], none, "verified", 0⟩ none
      =
    calculateCompatibilityScore ⟨⟨2026, 0, 1⟩, 0⟩
        ⟨"u", ⟨1990, 0, 1⟩, "male", "KR", ["hiking"], [], none, "verified", 0⟩
        ⟨"c", ⟨1992, 0, 1⟩, "female", "US", ["chess"], [], none, "verified", 0⟩ none + 4 :=
  (compatibilityScore_interest_monotone ⟨⟨2026, 0, 1⟩, 0⟩
    ⟨"u", ⟨1990, 0, 1⟩, "male", "KR", ["hiking"], [], none, "verified", 0⟩
    ⟨"c", ⟨1992, 0, 1⟩, "female", "US", ["chess"], [], none, "verified", 0⟩
    none "music" (by decide)).2 (by decide)

/-! ### Likes, passes and the mutual flag (src/lib/matching.ts, 221–284) -/

/-- A row of the `matches` table, the fields `likeUser`/`passUser` read and
write. -/
structure MatchRecord where
  user1_id : String
  user2_id : String
  user1_liked : Bool
  user2_liked : Bool
  is_mutual : Bool
deriving DecidableEq, Repr

/-- Result of a `likeUser` call: the match row as written, the `isMatch`
flag returned to the caller, and whether a `chat_rooms` row was inserted. -/
structure LikeResult where
  written : MatchRecord
  isMatch : Bool
  chatRoomCreated : Bool
deriving DecidableEq, Repr

/-- `matchingService.likeUser` (src/lib/matching.ts, lines 221–269).
`existing` is the row the initial `matches` query returns (`none` when no
match between the two users exists). On an existing row the caller's liked
flag is set, `is_mutual` becomes the other side's liked flag, and a chat
room is inserted exactly when `isMutual && !existingMatch.is_mutual`; with
no existing row a fresh non-mutual row is inserted. -/
def likeUser (userId targetUserId : String) (existing : Option MatchRecord) :
    LikeResult :=
  match existing with
  | some existingMatch =>
    let isMutual := if existingMatch.user1_id = userId
      then existingMatch.user2_liked else existingMatch.user1_liked
    let updated := if existingMatch.user1_id = userId
      then { existingMatch with user1_liked := true, is_mutual := isMutual }
      else { existingMatch with user2_liked := true, is_mutual := isMutual }
    { written := updated
      isMatch := isMutual
      chatRoomCreated := isMutual && !existingMatch.is_mutual }
  | none =>
    { written :=
        { user1_id := userId
          user2_id := targetUserId
          user1_liked := true
          user2_liked := false
          is_mutual := false }
      isMatch := false
      chatRoomCreated := false }

/-- `matchingService.passUser` (src/lib/matching.ts, lines 272–284): the
row upserted into `matches`. -/
def passUser (userId targetUserId : String) : MatchRecord :=
  { user1_id := userId
    user2_id := targetUserId
    user1_liked := false
    user2_liked := false
    is_mutual := false }

/-- C5: every match row written by `likeUser` or `passUser` has `is_mutual`
true only if both liked flags are true; on an existing row `is_mutual` is
set exactly to the other participant's prior liked flag, and a freshly
inserted row (first like, or a pass) is never mutual. -/
theorem likeUser_mutual_invariant (userId targetUserId : String)
    (existing : Option MatchRecord) :
    ((likeUser userId targetUserId existing).written.is_mutual = true →
      (likeUser userId targetUserId existing).written.user1_liked = true
      ∧ (likeUser userId targetUserId existing).written.user2_liked = true)
    ∧ (∀ m, existing = some m →
      (likeUser userId targetUserId existing).written.is_mutual
        = (if m.user1_id = userId then m.user2_liked else m.user1_liked))
    ∧ (likeUser userId targetUserId none).written.is_mutual = false
    ∧ (passUser userId targetUserId).is_mutual = false := by
  refine ⟨?_, ?_, rfl, rfl⟩
  · cases existing with
    | none => simp [likeUser]
    | some m =>
      simp only [likeUser]
      by_cases h : m.user1_id = userId <;> simp [h]
  · rintro m rfl
    simp only [likeUser]
    by_cases h : m.user1_id = userId <;> simp [h]

/-- Witness for C5 at a concrete input: the second like on a half-liked
match writes a row with both flags and `is_mutual` set. -/
theorem likeUser_mutual_invariant_witness :
    (likeUser "b" "a" (some ⟨"a", "b", true, false, false⟩)).written.user1_liked
      = true
    ∧ (likeUser "b" "a" (some ⟨"a", "b", true, false, false⟩)).written.user2_liked
      = true :=
  (likeUser_mutual_invariant "b" "a"
    (some ⟨"a", "b", true, false, false⟩)).1 (by decide)

/-- C6: `likeUser` creates a chat room if and only if the call makes the
match newly mutual — there is an existing row that was not yet mutual and
whose written form is mutual; a like that does not complete a mutual match
creates no chat room. -/
theorem likeUser_chatRoom_iff (userId targetUserId : String)
    (existing : Option MatchRecord) :
    (likeUser userId targetUserId existing).chatRoomCreated = true ↔
      ∃ m, existing = some m ∧ m.is_mutual = false
        ∧ (likeUser userId targetUserId existing).written.is_mutual = true := by
  cases existing with
  | none => simp [likeUser]
  | some m =>
    simp only [likeUser]
    by_cases h : m.user1_id = userId <;> simp [h] <;> tauto

/-- Witness for C6: a like that only starts a new match creates no chat
room, while the reciprocating like on a non-mutual row does. -/
theorem likeUser_chatRoom_iff_witness :
    ¬ ((likeUser "a" "b" none).chatRoomCreated = true) :=
  fun h => by
    obtain ⟨m, hm, -⟩ := (likeUser_chatRoom_iff "a" "b" none).mp h
    exact Option.noConfusion hm

/-! ### Recommendations (src/lib/matching.ts, 137–218) -/

/-- The id set excluded from recommendation (src/lib/matching.ts, lines
164–172): the requesting user, every counterpart of an existing match row,
and every user they blocked. Modelled as the list the `Set` is built from;
membership is what matters. -/
def excludeIds (userId : String) (existingMatches : List (String × String))
    (blocks : List String) : List String :=
  userId ::
    (existingMatches.map (fun m => if m.1 = userId then m.2 else m.1)
      ++ blocks)

/-- Lexicographic order on calendar dates; embeds the `lte`/`gte`
comparison of ISO `YYYY-MM-DD` strings in the candidate query. -/
def dateLE (a b : SimpleDate) : Bool :=
  decide (a.year < b.year)
    || (decide (a.year = b.year)
      && (decide (a.month < b.month)
        || (decide (a.month = b.month) && decide (a.day ≤ b.day))))

/-- The candidate query's row filter (src/lib/matching.ts, lines 175–198):
opposite gender, verified, id not excluded, and — when preferences with an
age range or preferred countries exist — within the birth-date window
resp. a preferred country. The birth-date window `[minBirthDate,
maxBirthDate]` computed from today's date is embedded as the interval
check itself. -/
def candidateFilter (currentUser : UserProfile)
    (preferences : Option MatchingPreferences)
    (excluded : List String) (clk : Clock) (p : UserProfile) : Bool :=
  decide (p.gender ≠ currentUser.gender)
    && decide (p.verification_status = "verified")
    && decide (p.id ∉ excluded)
    && (match preferences with
        | some pr =>
          let maxBirth : SimpleDate :=
            ⟨clk.today.year - pr.min_age, clk.today.month, clk.today.day⟩
          let minBirth : SimpleDate :=
            ⟨clk.today.year - pr.max_age - 1, clk.today.month, clk.today.day⟩
          dateLE p.birth_date maxBirth && dateLE minBirth p.birth_date
            && (decide (pr.preferred_countries.length = 0)
              || decide (p.country ∈ pr.preferred_countries))
        | none => true)

/-- Descending insertion on the second (score) component; embeds the JS
`sort((a, b) => b.compatibilityScore - a.compatibilityScore)`. -/
def insertByScoreDesc (x : UserProfile × Nat) :
    List (UserProfile × Nat) → List (UserProfile × Nat)
  | [] => [x]
  | y :: ys =>
    if y.2 ≤ x.2 then x :: y :: ys else y :: insertByScoreDesc x ys

/-- Sort scored candidates by descending score. -/
def sortByScoreDesc : List (UserProfile × Nat) → List (UserProfile × Nat)
  | [] => []
  | x :: xs => insertByScoreDesc x (sortByScoreDesc xs)

/-- `matchingService.getRecommendations` (src/lib/matching.ts, lines
137–218), with the database round trips passed in: `profilesTable` is the
`profiles` table in the order the query returns it, `existingMatches` the
`(user1_id, user2_id)` pairs involving the user, `blocks` the blocked ids.
The query filters and takes `limit * 2` rows; each candidate is paired
with its compatibility score, sorted descending, and the first `limit`
kept. -/
def getRecommendations (userId : String) (currentUser : UserProfile)
    (preferences : Option MatchingPreferences)
    (existingMatches : List (String × String)) (blocks : List String)
    (profilesTable : List UserProfile) (clk : Clock) (limit : Nat) :
    List (UserProfile × Nat) :=
  let excluded := excludeIds userId existingMatches blocks
  let candidates :=
    (profilesTable.filter
      (candidateFilter currentUser preferences excluded clk)).take
      (limit * 2)
  let scoredCandidates := candidates.map
    (fun candidate =>
      (candidate, calculateCompatibilityScore clk currentUser candidate preferences))
  (sortByScoreDesc scoredCandidates).take limit

lemma mem_insertByScoreDesc (x z : UserProfile × Nat)
    (l : List (UserProfile × Nat)) :
    z ∈ insertByScoreDesc x l ↔ z = x ∨ z ∈ l := by
  induction l with
  | nil => simp [insertByScoreDesc]
  | cons y ys ih =>
    simp only [insertByScoreDesc]
    split
    · simp
    · simp [ih]
      tauto

lemma mem_sortByScoreDesc (z : UserProfile × Nat)
    (l : List (UserProfile × Nat)) :
    z ∈ sortByScoreDesc l ↔ z ∈ l := by
  induction l with
  | nil => simp [sortByScoreDesc]
  | cons y ys ih =>
    simp [sortByScoreDesc, mem_insertByScoreDesc, ih]

lemma pairwise_insertByScoreDesc (x : UserProfile × Nat)
    (l : List (UserProfile × Nat))
    (hl : l.Pairwise (fun a b => b.2 ≤ a.2)) :
    (insertByScoreDesc x l).Pairwise (fun a b => b.2 ≤ a.2) := by
  induction l with
  | nil => simp [insertByScoreDesc]
  | cons y ys ih =>
    rw [List.pairwise_cons] at hl
    simp only [insertByScoreDesc]
    split
    · rename_i hyx
      rw [List.pairwise_cons]
      refine ⟨?_, List.pairwise_cons.mpr hl⟩
      intro a ha
      rcases List.mem_cons.mp ha with rfl | ha
      · exact hyx
      · exact le_trans (hl.1 a ha) hyx
    · rename_i hyx
      rw [List.pairwise_cons]
      refine ⟨?_, ih hl.2⟩
      intro a ha
      rcases (mem_insertByScoreDesc x a ys).mp ha with rfl | ha
      · omega
      · exact hl.1 a ha

lemma pairwise_sortByScoreDesc (l : List (UserProfile × Nat)) :
    (sortByScoreDesc l).Pairwise (fun a b => b.2 ≤ a.2) := by
  induction l with
  | nil => simp [sortByScoreDesc]
  | cons y ys ih => exact pairwise_insertByScoreDesc y (sortByScoreDesc ys) ih

/-- C7: `getRecommendations` returns at most `limit` scored profiles,
sorted in non-increasing order of compatibility score with the requesting
user (each returned score being exactly `calculateCompatibilityScore` of
the returned profile); the requesting user's own id is always in the
excluded id set, and consequently the user is never recommended to
themself. -/
theorem getRecommendations_spec (userId : String) (currentUser : UserProfile)
    (preferences : Option MatchingPreferences)
    (existingMatches : List (String × String)) (blocks : List String)
    (profilesTable : List UserProfile) (clk : Clock) (limit : Nat) :
    (getRecommendations userId currentUser preferences existingMatches blocks
        profilesTable clk limit).length ≤ limit
    ∧ (getRecommendations userId currentUser preferences existingMatches blocks
        profilesTable clk limit).Pairwise (fun a b => b.2 ≤ a.2)
    ∧ (∀ r ∈ getRecommendations userId currentUser preferences existingMatches
        blocks profilesTable clk limit,
        r.2 = calculateCompatibilityScore clk currentUser r.1 preferences)
    ∧ userId ∈ excludeIds userId existingMatches blocks
    ∧ (∀ r ∈ getRecommendations userId currentUser preferences existingMatches
        blocks profilesTable clk limit, r.1.id ≠ userId) := by
  refine ⟨?_, ?_, ?_, ?_, ?_⟩
  · simp only [getRecommendations]
    exact List.length_take_le limit _
  · exact List.Pairwise.sublist (List.take_sublist _ _)
      (pairwise_sortByScoreDesc _)
  · intro r hr
    simp only [getRecommendations] at hr
    have hr' := List.mem_of_mem_take hr
    rw [mem_sortByScoreDesc] at hr'
    obtain ⟨cand, -, rfl⟩ := List.mem_map.mp hr'
    rfl
  · exact List.mem_cons_self _ _
  · intro r hr
    simp only [getRecommendations] at hr
    have hr' := List.mem_of_mem_take hr
    rw [mem_sortByScoreDesc] at hr'
    obtain ⟨cand, hcand, rfl⟩ := List.mem_map.mp hr'
    have hflt : candidateFilter currentUser preferences
        (excludeIds userId existingMatches blocks) clk cand = true :=
      List.of_mem_filter (List.mem_of_mem_take hcand)
    simp only [candidateFilter, Bool.and_eq_true, decide_eq_true_eq] at hflt
    intro hid
    exact hflt.1.2 (hid ▸ List.mem_cons_self _ _)


/-- Witness for C7 at concrete inputs: one verified opposite-gender
candidate, limit 2 — the returned list has at most 2 entries and its one
member is not the requesting user. -/
theorem getRecommendations_spec_witness :
    (getRecommendations "u1"
        ⟨"u1", ⟨1990, 0, 1⟩, "male", "KR", [], [], none, "verified", 0⟩
        none [] []
        [⟨"c2", ⟨1992, 0, 1⟩, "female", "US", [], [], none, "verified", 0⟩]
        ⟨⟨2026, 0, 1⟩, 0⟩ 2).length ≤ 2
    ∧ ((⟨"c2", ⟨1992, 0, 1⟩, "female", "US", [], [], none, "verified", 0⟩,
          20) : UserProfile × Nat).1.id ≠ "u1" :=
  ⟨(getRecommendations_spec "u1"
      ⟨"u1", ⟨1990, 0, 1⟩, "male", "KR", [], [], none, "verified", 0⟩
      none [] []
      [⟨"c2", ⟨1992, 0, 1⟩, "female", "US", [], [], none, "verified", 0⟩]
      ⟨⟨2026, 0, 1⟩, 0⟩ 2).1,
   (getRecommendations_spec "u1"
      ⟨"u1", ⟨1990, 0, 1⟩, "male", "KR", [], [], none, "verified", 0⟩
      none [] []
      [⟨"c2", ⟨1992, 0, 1⟩, "female", "US", [], [], none, "verified", 0⟩]
      ⟨⟨2026, 0, 1⟩, 0⟩ 2).2.2.2.2
      (⟨"c2", ⟨1992, 0, 1⟩, "female", "US", [], [], none, "verified", 0⟩, 20)
      (by decide)⟩

/-! ### Reporting and moderation (src/unnamed/part_008 — lib/reporting.ts;
src/unnamed/part_001 — the reports API route) -/

/-- `ReportData.report_type` (src/unnamed/part_008). -/
inductive ReportType where
  | inappropriate_content
  | harassment
  | fake_profile
  | spam
  | abuse
  | other
deriving DecidableEq, Repr

/-- `ReportData.priority` (src/unnamed/part_008). -/
inductive ReportPriority where
  | low
  | medium
  | high
  | critical
deriving DecidableEq, Repr

/-- `ReportData.status` (src/unnamed/part_008). -/
inductive ReportStatus where
  | pending
  | investigating
  | resolved
  | rejected
deriving DecidableEq, Repr

/-- `SafetyAction.action_type` (src/unnamed/part_008). -/
inductive SafetyActionType where
  | warning
  | temporary_ban
  | permanent_ban
  | profile_review
  | content_removal
deriving DecidableEq, Repr

/-- `ReportingService.calculateReportPriority` (src/unnamed/part_008,
lines 578–592): `abuse`/`harassment` are critical,
`inappropriate_content`/`fake_profile` high, everything else medium. -/
def calculateReportPriority (report_type : ReportType) : ReportPriority :=
  if report_type = .abuse ∨ report_type = .harassment then .critical
  else if report_type = .inappropriate_content ∨ report_type = .fake_profile
    then .high
  else .medium

/-- The caller-supplied part of a report (`createReport`'s argument). -/
structure ReportInput where
  reporter_id : String
  reported_user_id : String
  report_type : ReportType
deriving DecidableEq, Repr

/-- A row of the `reports` table as `createReport` inserts it;
`created_at` is the insertion instant in epoch milliseconds. -/
structure ReportRow where
  reporter_id : String
  reported_user_id : String
  report_type : ReportType
  status : ReportStatus
  priority : ReportPriority
  created_at : Int
deriving DecidableEq, Repr

/-- The row `ReportingService.createReport` (src/unnamed/part_008, lines
542–575) inserts: input fields plus `status := pending` and the computed
priority. -/
def createReportRow (input : ReportInput) (nowMs : Int) : ReportRow :=
  { reporter_id := input.reporter_id
    reported_user_id := input.reported_user_id
    report_type := input.report_type
    status := .pending
    priority := calculateReportPriority input.report_type
    created_at := nowMs }

/-- The action request the escalation rule hands to `applySafetyAction`
(`action_type` plus the optional `duration` in hours). -/
structure AutoActionRequest where
  action_type : SafetyActionType
  duration : Option Int
deriving DecidableEq, Repr

/-- The count query of `checkForAutomaticActions` (src/unnamed/part_008,
lines 779–786): reports against `userId` of the same `report_type` whose
`created_at` is within the last 30 days. -/
def countRecentSameTypeReports (reports : List ReportRow) (userId : String)
    (report_type : ReportType) (nowMs : Int) : Nat :=
  (reports.filter (fun r =>
    decide (r.reported_user_id = userId)
      && decide (r.report_type = report_type)
      && decide (nowMs - 30 * 86400000 ≤ r.created_at))).length

/-- The tier selection of `ReportingService.checkForAutomaticActions`
(src/unnamed/part_008, lines 788–811): harassment at 5 reports gives a
72-hour temporary ban, inappropriate content at 3 a profile review, any
type at 10 a permanent ban; otherwise no action. -/
def checkForAutomaticActions (reportCount : Nat)
    (report_type : ReportType) : Option AutoActionRequest :=
  if 5 ≤ reportCount ∧ report_type = .harassment then
    some { action_type := .temporary_ban, duration := some 72 }
  else if 3 ≤ reportCount ∧ report_type = .inappropriate_content then
    some { action_type := .profile_review, duration := none }
  else if 10 ≤ reportCount then
    some { action_type := .permanent_ban, duration := none }
  else
    none

/-- The account fields of a `profiles` row that `applySafetyAction`
updates. -/
structure AccountState where
  account_status : String
  suspension_until : Option Int
  banned_at : Option Int
deriving DecidableEq, Repr

/-- `actionData.duration || 24`: JS `||`, so an absent or zero duration
falls back to 24 hours. -/
def durationOrDefault : Option Int → Int
  | some d => if d = 0 then 24 else d
  | none => 24

/-- The `profiles` update of `ReportingService.applySafetyAction`
(src/unnamed/part_008, lines 818–878): temporary ban suspends until
`now + duration` hours, permanent ban sets `banned`, profile review sets
`under_review`; any other action leaves the account row unchanged. -/
def applySafetyActionUpdate (nowMs : Int) (a : AutoActionRequest)
    (s : AccountState) : AccountState :=
  match a.action_type with
  | .temporary_ban =>
    { s with
        account_status := "suspended"
        suspension_until :=
          some (nowMs + durationOrDefault a.duration * 60 * 60 * 1000) }
  | .permanent_ban =>
    { s with account_status := "banned", banned_at := some nowMs }
  | .profile_review =>
    { s with account_status := "under_review" }
  | _ => s

/-- One run of the escalation routine after a report is created: count the
recent same-type reports, pick the tier, apply the account update. The
first component is the action applied (`none` when no tier fires). -/
def escalationStep (reports : List ReportRow) (userId : String)
    (report_type : ReportType) (nowMs : Int) (s : AccountState) :
    Option AutoActionRequest × AccountState :=
  let reportCount := countRecentSameTypeReports reports userId report_type nowMs
  match checkForAutomaticActions reportCount report_type with
  | some a => (some a, applySafetyActionUpdate nowMs a s)
  | none => (none, s)

/-- The thresholds configured in `checkForAutomaticActions`: 5 for
harassment, 3 for inappropriate content, 10 for any type. -/
def thresholdExceeded (reportCount : Nat) (report_type : ReportType) : Prop :=
  (report_type = .harassment ∧ 5 ≤ reportCount)
    ∨ (report_type = .inappropriate_content ∧ 3 ≤ reportCount)
    ∨ 10 ≤ reportCount

instance thresholdExceeded_decidable (n : Nat) (t : ReportType) :
    Decidable (thresholdExceeded n t) := by
  unfold thresholdExceeded
  infer_instance

lemma checkForAutomaticActions_isSome_iff (n : Nat) (t : ReportType) :
    (checkForAutomaticActions n t).isSome = true ↔ thresholdExceeded n t := by
  unfold checkForAutomaticActions thresholdExceeded
  split
  · rename_i h
    exact iff_of_true rfl (Or.inl ⟨h.2, h.1⟩)
  · split
    · rename_i h1 h
      exact iff_of_true rfl (Or.inr (Or.inl ⟨h.2, h.1⟩))
    · split
      · rename_i h1 h2 h
        exact iff_of_true rfl (Or.inr (Or.inr h))
      · rename_i h1 h2 h3
        refine iff_of_false (by simp) ?_
        rintro (⟨ht, hn⟩ | ⟨ht, hn⟩ | hn)
        · exact h1 ⟨hn, ht⟩
        · exact h2 ⟨hn, ht⟩
        · exact h3 hn

/-- C2: after a new report, the escalation routine counts the same-type
reports against the reported user from the last 30 days; it applies an
action (exactly one, since at most one tier of the if/else chain fires)
precisely when a configured threshold is met, the applied action is one of
warning / temporary ban / profile review / permanent ban, and when no
threshold is met it applies no action and leaves the account state
unchanged. -/
theorem escalation_tiered_actions (reports : List ReportRow)
    (userId : String) (t : ReportType) (nowMs : Int) (s : AccountState)
    (n : Nat) (hn : n = countRecentSameTypeReports reports userId t nowMs) :
    ((escalationStep reports userId t nowMs s).1.isSome = true
      ↔ thresholdExceeded n t)
    ∧ (∀ a, (escalationStep reports userId t nowMs s).1 = some a →
        a.action_type = SafetyActionType.warning
        ∨ a.action_type = SafetyActionType.temporary_ban
        ∨ a.action_type = SafetyActionType.profile_review
        ∨ a.action_type = SafetyActionType.permanent_ban)
    ∧ (¬ thresholdExceeded n t →
        escalationStep reports userId t nowMs s = (none, s)) := by
  subst hn
  simp only [escalationStep]
  refine ⟨?_, ?_, ?_⟩
  · rw [← checkForAutomaticActions_isSome_iff]
    cases checkForAutomaticActions
        (countRecentSameTypeReports reports userId t nowMs) t <;> simp
  · intro a ha
    revert ha
    cases h : checkForAutomaticActions
        (countRecentSameTypeReports reports userId t nowMs) t with
    | none => simp
    | some b =>
      simp only [Option.some.injEq]
      rintro rfl
      revert h
      simp only [checkForAutomaticActions]
      split
      · rintro ⟨rfl⟩; simp
      · split
        · rintro ⟨rfl⟩; simp
        · split
          · rintro ⟨rfl⟩; simp
          · intro h; exact absurd h (by simp)
  · intro hno
    rw [← checkForAutomaticActions_isSome_iff] at hno
    cases h : checkForAutomaticActions
        (countRecentSameTypeReports reports userId t nowMs) t with
    | none => simp
    | some b => rw [h] at hno; simp at hno

/-- Witness for C2 at concrete inputs: three recent inappropriate-content
reports against "bob" trigger an action. -/
theorem escalation_tiered_actions_witness :
    (escalationStep
        [⟨"a", "bob", .inappropriate_content, .pending, .high, 0⟩,
         ⟨"b", "bob", .inappropriate_content, .pending, .high, 0⟩,
         ⟨"c", "bob", .inappropriate_content, .pending, .high, 0⟩]
        "bob" .inappropriate_content 0
        ⟨"active", none, none⟩).1.isSome = true :=
  (escalation_tiered_actions
    [⟨"a", "bob", .inappropriate_content, .pending, .high, 0⟩,
     ⟨"b", "bob", .inappropriate_content, .pending, .high, 0⟩,
     ⟨"c", "bob", .inappropriate_content, .pending, .high, 0⟩]
    "bob" .inappropriate_content 0 ⟨"active", none, none⟩ 3
    (by decide)).1.mpr (by decide)

/-- C3 counterexample: at 10 same-type reports of type harassment the
routine applies a temporary ban, not a permanent ban — the permanent-ban
tier is shadowed by the earlier harassment tier. -/
theorem escalation_permanentBan_cex :
    (checkForAutomaticActions 10 ReportType.harassment).map
        AutoActionRequest.action_type
      = some SafetyActionType.temporary_ban
    ∧ (checkForAutomaticActions 10 ReportType.harassment).map
        AutoActionRequest.action_type
      ≠ some SafetyActionType.permanent_ban := by
  decide

/-- C3 amended: once the 30-day same-type report count reaches 10, the
routine applies a permanent ban for every report type other than
harassment and inappropriate content; for those two types the earlier
tiers (temporary ban at 5, profile review at 3) fire instead. -/
theorem escalation_permanentBan_other_types (n : Nat) (t : ReportType)
    (h10 : 10 ≤ n) (hh : t ≠ ReportType.harassment)
    (hi : t ≠ ReportType.inappropriate_content) :
    checkForAutomaticActions n t
      = some { action_type := SafetyActionType.permanent_ban
               duration := none } := by
  simp only [checkForAutomaticActions]
  rw [if_neg (by tauto), if_neg (by tauto), if_pos h10]

/-- Witness for C3's amended theorem: 10 spam reports yield a permanent
ban. -/
theorem escalation_permanentBan_other_types_witness :
    checkForAutomaticActions 10 ReportType.spam
      = some { action_type := SafetyActionType.permanent_ban
               duration := none } :=
  escalation_permanentBan_other_types 10 ReportType.spam (by decide)
    (by decide) (by decide)

/-- C9: every created report's priority is critical for abuse/harassment,
high for inappropriate content/fake profile, medium for every other type;
the `low` priority, though part of the data type, is never assigned. -/
theorem reportPriority_classification (t : ReportType) (input : ReportInput)
    (nowMs : Int) :
    ((calculateReportPriority t = .critical)
      ↔ (t = .abuse ∨ t = .harassment))
    ∧ ((calculateReportPriority t = .high)
      ↔ (t = .inappropriate_content ∨ t = .fake_profile))
    ∧ ((calculateReportPriority t = .medium)
      ↔ ¬(t = .abuse ∨ t = .harassment ∨ t = .inappropriate_content
          ∨ t = .fake_profile))
    ∧ calculateReportPriority t ≠ .low
    ∧ (createReportRow input nowMs).priority
        = calculateReportPriority input.report_type
    ∧ (createReportRow input nowMs).status = .pending
    ∧ (createReportRow input nowMs).priority ≠ .low := by
  refine ⟨?_, ?_, ?_, ?_, rfl, rfl, ?_⟩
  · cases t <;> decide
  · cases t <;> decide
  · cases t <;> decide
  · cases t <;> decide
  · show calculateReportPriority input.report_type ≠ .low
    cases input.report_type <;> decide

/-- Witness for C9: a spam report is medium-priority, never low. -/
theorem reportPriority_classification_witness :
    calculateReportPriority ReportType.spam ≠ ReportPriority.low :=
  (reportPriority_classification ReportType.spam ⟨"a", "b", .spam⟩ 0).2.2.2.1

/-! ### The reports API route (src/unnamed/part_001, lines 11–64) -/

/-- The JSON request body of `POST /api/reports`, with the three fields the
handler validates; `none` models an absent field. -/
structure ReportRequestBody where
  reporter_id : Option String
  reported_user_id : Option String
  report_type : Option String
deriving DecidableEq, Repr

/-- JS truthiness of an optional string field: absent and empty string are
falsy. -/
def truthyField : Option String → Bool
  | none => false
  | some s => !(s == "")

/-- Observable outcome of one `POST /api/reports` request: HTTP status,
whether a report row was inserted, whether the escalation routine ran. -/
structure PostReportsOutcome where
  status : Nat
  reportCreated : Bool
  escalationRun : Bool
deriving DecidableEq, Repr

/-- The `POST` handler (src/unnamed/part_001, lines 11–64): reject missing
fields (400), then self-reports (400), then duplicates (409); otherwise
`createReport` inserts the row and runs the escalation check, and the
handler returns the report (200) or 500 when creation failed.
`hasDuplicate` is whether the duplicate-check query returns a row,
`createSucceeds` whether the insert in `createReport` succeeds. -/
def postReports (body : ReportRequestBody)
    (hasDuplicate createSucceeds : Bool) : PostReportsOutcome :=
  if !truthyField body.reporter_id || !truthyField body.reported_user_id
      || !truthyField body.report_type then
    { status := 400, reportCreated := false, escalationRun := false }
  else if body.reporter_id == body.reported_user_id then
    { status := 400, reportCreated := false, escalationRun := false }
  else if hasDuplicate then
    { status := 409, reportCreated := false, escalationRun := false }
  else if createSucceeds then
    { status := 200, reportCreated := true, escalationRun := true }
  else
    { status := 500, reportCreated := false, escalationRun := false }

/-- C8: for every request body whose `reporter_id` equals
`reported_user_id`, the handler responds 400, creates no report row and
runs no escalation, whatever the database state. -/
theorem postReports_self_report_rejected (body : ReportRequestBody)
    (hasDuplicate createSucceeds : Bool)
    (hself : body.reporter_id = body.reported_user_id) :
    (postReports body hasDuplicate createSucceeds).status = 400
    ∧ (postReports body hasDuplicate createSucceeds).reportCreated = false
    ∧ (postReports body hasDuplicate createSucceeds).escalationRun = false := by
  simp only [postReports, hself, beq_self_eq_true, if_true]
  split
  · exact ⟨rfl, rfl, rfl⟩
  · exact ⟨rfl, rfl, rfl⟩

/-- Witness for C8: a concrete self-report gets a 400 and nothing is
written. -/
theorem postReports_self_report_rejected_witness :
    (postReports ⟨some "x", some "x", some "spam"⟩ false true).status = 400
    ∧ (postReports ⟨some "x", some "x", some "spam"⟩ false true).reportCreated
        = false :=
  ⟨(postReports_self_report_rejected ⟨some "x", some "x", some "spam"⟩
      false true rfl).1,
   (postReports_self_report_rejected ⟨some "x", some "x", some "spam"⟩
      false true rfl).2.1⟩

end MatchingApp
